import Mathlib

/-!
# awget-server: middleware chain, handlers and readiness flag

A shallow embedding of `awget-server` (`main.go`, `basicAuth.go`, `content.go`).

A Go `http.Handler` receives a response writer (mutable, shared by every stage of the
chain) and a request, and may touch process-wide state (the `healthy` flag, the logger's
output stream, the clock, the file system, the random source).  Here a handler is a
function `Request → World → World`; `World` gathers the response writer with the
process-wide state.

The standard library (`net/http`, `context`, `fmt`, `os`, `io`, `strconv`) is not part of
the repository; the operations the program calls are modelled after their documented
behaviour, each in the section named after its package.
-/

namespace Awget

/-! ## net/http: headers -/

/-- A header map (`http.Header`, a `map[string][]string`) as an association list;
the first entry for a key is the map's entry. -/
abbrev Header := List (String × List String)

/-- Bytes allowed in a header field name (`validHeaderFieldByte`): the token characters
of RFC 7230. -/
def validHeaderFieldByte (c : Char) : Bool :=
  c.isAlphanum || "!#$%&*+-.^_|~".toList.contains c || c == Char.ofNat 39 || c == Char.ofNat 96

/-- The rewriting loop of `canonicalMIMEHeaderKey`: the first letter and every letter
after a hyphen in upper case, all other letters in lower case. -/
def canonicalLoop : Bool → List Char → List Char
  | _, [] => []
  | upper, c :: cs =>
    (if upper then c.toUpper else c.toLower) :: canonicalLoop (c == '-') cs

/-- The function `textproto.CanonicalMIMEHeaderKey`: a key holding a byte that is not
allowed in a field name is returned unchanged. -/
def CanonicalMIMEHeaderKey (s : String) : String :=
  if s.toList.all validHeaderFieldByte then String.mk (canonicalLoop true s.toList) else s

/-- The entry of the map for an already canonical key. -/
def Header.lookup (h : Header) (k : String) : Option (List String) :=
  List.lookup k h

/-- The method `Header.Get`: the first value associated with the canonical form of
the key, or the empty string when there is none. -/
def Header.Get (h : Header) (key : String) : String :=
  match h.lookup (CanonicalMIMEHeaderKey key) with
  | some (v :: _) => v
  | _ => ""

/-- The method `Header.Set`: the entry of the canonical form of the key becomes the
single value `value`, replacing what was there. -/
def Header.Set (h : Header) (key value : String) : Header :=
  (CanonicalMIMEHeaderKey key, [value]) ::
    h.filter (fun e => !(e.1 == CanonicalMIMEHeaderKey key))

/-! ## context -/

/-- Values that a context can hold (`interface{}`): strings, and values of any other
dynamic type, for which the type assertion `.(string)` fails. -/
inductive Value where
  | str (s : String)
  | other (tag : Nat)
  deriving DecidableEq, Repr

/-- Keys of context values.  Interface equality compares the dynamic type and the value:
`key n` are the values of this package's type `key`, `foreign` the keys of other packages
(such as `http.ServerContextKey`). -/
inductive CtxKey where
  | key (n : Int)
  | foreign (name : String)
  deriving DecidableEq, Repr

/-- The constant `requestIDKey key = 0` of `main.go`. -/
def requestIDKey : CtxKey := CtxKey.key 0

/-- A context, as the chain of `WithValue` bindings over the background context,
innermost (latest) binding first. -/
abbrev Context := List (CtxKey × Value)

/-- The function `context.WithValue`. -/
def Context.WithValue (parent : Context) (k : CtxKey) (v : Value) : Context :=
  (k, v) :: parent

/-- The method `Context.Value`: the latest binding of the key, `none` for Go's `nil`. -/
def Context.Value (c : Context) (k : CtxKey) : Option Value :=
  List.lookup k c

/-! ## net/http: requests -/

/-- The part of `http.Request` that the program reads.  `Credentials` stands for what
the library's parse of the `Authorization` header yields: `some (u, p)` when the header
holds well-formed Basic credentials, `none` otherwise. -/
structure Request where
  Method : String
  URLPath : String
  RemoteAddr : String
  Header : Header
  Credentials : Option (String × String)
  ctx : Context

/-- The method `Request.Context`. -/
def Request.Context (r : Request) : Awget.Context := r.ctx

/-- The method `Request.WithContext`: a copy of the request with its context replaced. -/
def Request.WithContext (r : Request) (c : Awget.Context) : Request := { r with ctx := c }

/-- The method `Request.UserAgent`. -/
def Request.UserAgent (r : Request) : String := r.Header.Get "User-Agent"

/-- The method `Request.BasicAuth`: user name, password and whether the request carries
Basic credentials; both strings are empty when it does not. -/
def Request.BasicAuth (r : Request) : String × String × Bool :=
  match r.Credentials with
  | some (u, p) => (u, p, true)
  | none => ("", "", false)

/-! ## log -/

/-- A `log.Logger` writing to standard output with a prefix.  The date and time that
`log.LstdFlags` puts between the prefix and the message are left out of the model. -/
structure Logger where
  pfx : String

/-! ## os -/

/-- A file as `os.Open` hands it out.  `content` is the byte sequence of the file,
which is what `Stat` measures and `Read` delivers (a regular file that nobody changes
while the request is served); `statFails` makes `Stat` return an error;
`readFailsAt = some n` makes reading return an error after `n` bytes. -/
structure File where
  content : List UInt8
  statFails : Bool
  readFailsAt : Option Nat
  deriving DecidableEq

/-- The result of `f.Stat()` followed by `fi.Size()`: the size as an `int64`. -/
def File.Stat (f : File) : Option Int :=
  if f.statFails then none else some (f.content.length : Int)

/-- The bytes that reading the file to its end delivers before it stops, and whether
it stopped on an error rather than at the end of the file. -/
def File.readAll (f : File) : List UInt8 × Bool :=
  match f.readFailsAt with
  | none => (f.content, false)
  | some n => (f.content.take n, true)

/-! ## net/http: the response writer and the world -/

/-- The state of an `http.ResponseWriter`.  `header` is the map that `w.Header()`
returns; `wroteHeader`, `status` and `sent` record the status line and the headers as
they were when the status line was written; `body` holds the bytes written after it;
`errorLog` is the `ErrorLog` of the server the writer belongs to. -/
structure ResponseWriter where
  header : Header
  wroteHeader : Bool
  status : Nat
  sent : Header
  body : List UInt8
  errorLog : Logger

/-- The response writer together with the process-wide state a handler can reach:
the `healthy` flag (an `int32`), the lines on standard output, the readings that
successive calls of `time.Now().UnixNano()` return, the file system (`none` where
`os.Open` fails), the values that successive calls of the random source return, and the
total time spent in `time.Sleep` (nanoseconds). -/
structure World where
  resp : ResponseWriter
  healthy : Int
  stdout : List String
  clock : Nat → Int
  fs : String → Option File
  rand : Nat → Nat
  slept : Nat

/-- A value of `http.Handler`: `ServeHTTP(w, r)` as a state transformer. -/
abbrev Handler := Request → World → World

/-- The function `fmt.Sprintln` on string operands: a space between operands, a newline
at the end. -/
def Sprintln (args : List String) : String :=
  String.intercalate " " args ++ "\n"

/-- The method `Logger.Println`: one line on standard output. -/
def Logger.Println (l : Logger) (args : List String) (s : World) : World :=
  { s with stdout := s.stdout ++ [l.pfx ++ Sprintln args] }

/-- The status codes used by the program. -/
def StatusOK : Nat := 200
def StatusNoContent : Nat := 204
def StatusUnauthorized : Nat := 401
def StatusNotFound : Nat := 404
def StatusInternalServerError : Nat := 500
def StatusServiceUnavailable : Nat := 503

/-- The method `ResponseWriter.WriteHeader`.  The first call fixes the status and the
headers of the response.  A later call changes nothing in the response; the server
reports it on its `ErrorLog` (the position of the caller, which the library appends to
the message, is left out). -/
def WriteHeader (code : Nat) (s : World) : World :=
  if s.resp.wroteHeader then
    s.resp.errorLog.Println ["http: superfluous response.WriteHeader call"] s
  else
    { s with resp := { s.resp with wroteHeader := true, status := code, sent := s.resp.header } }

/-- The function `bodyAllowedForStatus`: no body with 1xx, 204 and 304. -/
def bodyAllowedForStatus (status : Nat) : Bool :=
  if 100 ≤ status ∧ status ≤ 199 then false
  else if status = 204 then false
  else if status = 304 then false
  else true

/-- The method `ResponseWriter.Write`: writes the status line with 200 when none was
written yet, then appends the bytes to the body when the status allows a body. -/
def Write (bytes : List UInt8) (s : World) : World :=
  let s1 := if s.resp.wroteHeader then s else WriteHeader StatusOK s
  if bodyAllowedForStatus s1.resp.status then
    { s1 with resp := { s1.resp with body := s1.resp.body ++ bytes } }
  else s1

/-- The statement `w.Header().Set(key, value)`. -/
def setHeader (key value : String) (s : World) : World :=
  { s with resp := { s.resp with header := s.resp.header.Set key value } }

/-- The bytes of a Go string. -/
def bytesOf (str : String) : List UInt8 := str.toUTF8.data.toList

/-- The statement `fmt.Fprintln(w, str)`. -/
def Fprintln (str : String) (s : World) : World :=
  Write (bytesOf (Sprintln [str])) s

/-- The function `http.Error`. -/
def Error (error : String) (code : Nat) (s : World) : World :=
  Fprintln error
    (WriteHeader code
      (setHeader "X-Content-Type-Options" "nosniff"
        (setHeader "Content-Type" "text/plain; charset=utf-8" s)))

/-- The handler `http.NotFound`. -/
def NotFound : Handler := fun _ s => Error "404 page not found" StatusNotFound s

/-- A `http.ServeMux` whose patterns are all plain paths (none ends in a slash, none
names a host): the registered patterns with their handlers. -/
abbrev ServeMux := List (String × Handler)

/-- The method `ServeMux.ServeHTTP` for such a mux: the handler registered for exactly
the request's path, `http.NotFound` when there is none. -/
def ServeMux.ServeHTTP (mux : ServeMux) : Handler := fun r s =>
  match List.lookup r.URLPath mux with
  | some h => h r s
  | none => NotFound r s

/-! ## strconv, fmt, time, math/rand, io -/

/-- The decimal rendering of an integer (`strconv.Itoa`, `fmt.Sprintf("%d", _)`). -/
def Itoa (n : Int) : String :=
  match n with
  | Int.ofNat m => Nat.repr m
  | Int.negSucc m => "-" ++ Nat.repr (m + 1)

/-- The rendering of a boolean by the verb `%t`. -/
def fmtBool (b : Bool) : String := if b then "true" else "false"

/-- The expression `time.Now().UnixNano()`: the next reading of the clock. -/
def UnixNano (s : World) : Int × World :=
  (s.clock 0, { s with clock := fun n => s.clock (n + 1) })

/-- The call `rand.Intn(n)`: the next value of the random source, reduced to `[0, n)`. -/
def Intn (n : Nat) (s : World) : Nat × World :=
  (s.rand 0 % n, { s with rand := fun i => s.rand (i + 1) })

/-- The call `time.Sleep(d)`. -/
def Sleep (d : Nat) (s : World) : World := { s with slept := s.slept + d }

/-- The call `io.Copy(w, f)`: the bytes read from the file are written to the response;
the result says whether the copy ended with an error. -/
def Copy (f : File) (s : World) : Bool × World :=
  ((f.readAll).2, Write (f.readAll).1 s)

/-! ## main.go: the middleware chain -/

/-- The closure `nextRequestID` of `httpServer` and `httpsServer`:
`fmt.Sprintf("%d", time.Now().UnixNano())`. -/
def nextRequestID (s : World) : String × World :=
  (Itoa (UnixNano s).1, (UnixNano s).2)

/-- The function `logging`: the deferred function runs when the wrapped stage has
returned; it reads the request id from the context of the request that `logging`
received, falling back to "unknown" when the context holds no string under the key. -/
def logging (logger : Logger) (next : Handler) : Handler := fun r s =>
  let s1 := next r s
  let requestID :=
    match r.Context.Value requestIDKey with
    | some (Value.str v) => v
    | _ => "unknown"
  logger.Println [requestID, r.Method, r.URLPath, r.RemoteAddr, r.UserAgent] s1

/-- The identifier that `tracing` chooses and the world after choosing it: the value of
the request's `X-Request-Id` header, or the generator's output when that is empty. -/
def chooseRequestID (gen : World → String × World) (r : Request) (s : World) :
    String × World :=
  if r.Header.Get "X-Request-Id" = "" then gen s else (r.Header.Get "X-Request-Id", s)

/-- The function `tracing`. -/
def tracing (gen : World → String × World) (next : Handler) : Handler := fun r s =>
  let (requestID, s1) := chooseRequestID gen r s
  let ctx := r.Context.WithValue requestIDKey (Value.str requestID)
  let s2 := setHeader "X-Request-Id" requestID s1
  next (r.WithContext ctx) s2

/-! ## basicAuth.go -/

/-- The constant `user`. -/
def user : String := "hello"

/-- The constant `password`. -/
def password : String := "world"

/-- The function `auth`. -/
def auth (u p : String) : Bool := user == u && password == p

/-- The function `basicAuthHandler`. -/
def basicAuthHandler (handler : Handler) : Handler := fun r s =>
  match r.BasicAuth with
  | (u, p, ok) =>
    if !ok || !auth u p then
      Error ("Unauthorized user: " ++ u ++ ", " ++ p ++ ", " ++ fmtBool ok) StatusUnauthorized
        (setHeader "WWW-Authenticate" "Basic realm=\"SECRET AREA\"" s)
    else handler r s

/-! ## content.go -/

/-- The function `contentText`. -/
def contentText (str : String) : Handler := fun _ s =>
  Fprintln str (WriteHeader StatusOK (setHeader "Content-Type" "text/plain; charset=utf-8" s))

/-- The function `contentCapriceText`: three seconds of sleep when the random value
below nine is below six. -/
def contentCapriceText (str : String) : Handler := fun r s =>
  let (n, s1) := Intn 9 s
  let s2 := if n < 6 then Sleep (3 * 1000000000) s1 else s1
  contentText str r s2

/-- The function `contentBinary`.  Go's `int` has 64 bits on the platforms the server
is built for, so `int(fi.Size())` is the `int64` itself. -/
def contentBinary (path : String) : Handler := fun _ s =>
  match s.fs path with
  | none => Error "File Open Error" StatusInternalServerError s
  | some f =>
    match f.Stat with
    | none => Error "Get file stat error" StatusInternalServerError s
    | some size =>
      let s1 := setHeader "Content-Type" "application/octet-stream" s
      let s2 := setHeader "Content-Length" (Itoa size) s1
      let s3 := WriteHeader StatusOK s2
      let (err, s4) := Copy f s3
      if err then Error "Write Error" StatusInternalServerError s4 else s4

/-- The function `healthz`. -/
def healthz : Handler := fun _ s =>
  if s.healthy = 1 then WriteHeader StatusNoContent s
  else WriteHeader StatusServiceUnavailable s

/-! ## main.go: the two servers -/

/-- The routes that `httpServer` and `httpsServer` both register. -/
def router : ServeMux :=
  [ ("/hello", contentText "Hello World!"),
    ("/secret/hello", basicAuthHandler (contentText "[Secret] Hello World!")),
    ("/timeout/hello", contentCapriceText "[Timeout] Hello World!"),
    ("/large1", contentBinary "/home/zuiurs/bin1"),
    ("/large2", contentBinary "/home/zuiurs/bin2"),
    ("/healthz", healthz) ]

/-- The logger of `httpServer`. -/
def httpLogger : Logger := ⟨"http: "⟩

/-- The logger of `httpsServer`. -/
def httpsLogger : Logger := ⟨"https: "⟩

/-- The `Handler` field of the server that `httpServer` and `httpsServer` build:
`tracing(nextRequestID)(logging(logger)(router))`. -/
def serverHandler (logger : Logger) : Handler :=
  tracing nextRequestID (logging logger router.ServeHTTP)

/-! ## Sample requests and worlds -/

/-- No part of the response has been written yet: the state in which the server hands
a response writer to the handler chain, headers set by outer stages apart. -/
def World.fresh (s : World) : Prop := s.resp.wroteHeader = false ∧ s.resp.body = []

/-- The response writer as the server creates it for a request. -/
def newResponseWriter (errorLog : Logger) : ResponseWriter :=
  { header := [], wroteHeader := false, status := 0, sent := [], body := [], errorLog := errorLog }

/-- A world at the arrival of a request at the plain server: nothing written, flag `h`,
the clock reading 42, 43, ..., no file, random values 0, 1, .... -/
def sampleWorld (h : Int) : World :=
  { resp := newResponseWriter httpLogger, healthy := h, stdout := [],
    clock := fun n => 42 + (n : Int), fs := fun _ => none, rand := fun n => n, slept := 0 }

/-- A `GET` request for `path` with the given headers and credentials. -/
def sampleRequest (path : String) (hdr : Header) (cred : Option (String × String)) : Request :=
  { Method := "GET", URLPath := path, RemoteAddr := "192.0.2.1:4711", Header := hdr,
    Credentials := cred, ctx := [] }

/-! ## main.go: the two lifecycles and the readiness flag

Each of `httpServer` and `httpsServer` runs a serving path (the function body) and a
shutdown watcher (the goroutine started at lines 69 and 125); all four share the global
`healthy`.  The steps below are the places where one of them stores into the flag,
receives the interrupt, or passes a call that waits for the other. -/

/-- The two servers started by `main`. -/
inductive Server where
  | plain
  | tls
  deriving DecidableEq, Repr

/-- Where the serving path of a lifecycle stands: `starting` up to the log line before
the store of 1 (the watcher goroutine is already running), `serving` after
`atomic.StoreInt32(&healthy, 1)` and inside `ListenAndServe`, `closed` once
`ListenAndServe` has returned `http.ErrServerClosed` and the path waits on `done`,
`stopped` after `<-done`. -/
inductive ServePc where
  | starting
  | serving
  | closed
  | stopped
  deriving DecidableEq, Repr

/-- Where the shutdown watcher of a lifecycle stands: `waiting` in `<-quit`, `notified`
after the receive and before the store, `draining` after
`atomic.StoreInt32(&healthy, 0)` and inside `server.Shutdown`, `done` once `Shutdown`
has returned and `done` is closed. -/
inductive WatchPc where
  | waiting
  | notified
  | draining
  | done
  deriving DecidableEq, Repr

/-- One lifecycle: its two control points and whether an interrupt waits in its `quit`
channel (capacity 1). -/
structure Lifecycle where
  serve : ServePc
  watch : WatchPc
  quit : Bool
  deriving DecidableEq, Repr

/-- The process: the flag `healthy` and the two lifecycles. -/
structure System where
  healthy : Int
  plain : Lifecycle
  tls : Lifecycle
  deriving DecidableEq, Repr

/-- The steps of the process. -/
inductive Step where
  | interrupt
  | storeReady (sv : Server)
  | receive (sv : Server)
  | storeNotReady (sv : Server)
  | serverClosed (sv : Server)
  | drained (sv : Server)
  | stop (sv : Server)
  deriving DecidableEq, Repr

/-- The lifecycle of a server. -/
def System.life (sys : System) : Server → Lifecycle
  | Server.plain => sys.plain
  | Server.tls => sys.tls

/-- The system with the lifecycle of a server replaced. -/
def System.setLife (sys : System) (sv : Server) (l : Lifecycle) : System :=
  match sv with
  | Server.plain => { sys with plain := l }
  | Server.tls => { sys with tls := l }

/-- The process when `main` has started both servers: the flag has its zero value. -/
def System.init : System :=
  { healthy := 0,
    plain := { serve := ServePc.starting, watch := WatchPc.waiting, quit := false },
    tls := { serve := ServePc.starting, watch := WatchPc.waiting, quit := false } }

/-- One step of the process, `none` when the step cannot be taken.
`interrupt`: the signal is put into both `quit` channels.
`storeReady`: line 87 / 143.  `receive`: line 72 / 128.  `storeNotReady`: line 74 / 130.
`serverClosed`: `ListenAndServe` returns once `Shutdown` has been called.
`drained`: `Shutdown` returns and `done` is closed.  `stop`: `<-done` returns. -/
def System.step (sys : System) : Step → Option System
  | Step.interrupt =>
    some { sys with plain := { sys.plain with quit := true },
                    tls := { sys.tls with quit := true } }
  | Step.storeReady sv =>
    if (sys.life sv).serve = ServePc.starting then
      some { sys.setLife sv { sys.life sv with serve := ServePc.serving } with healthy := 1 }
    else none
  | Step.receive sv =>
    if (sys.life sv).watch = WatchPc.waiting ∧ (sys.life sv).quit = true then
      some (sys.setLife sv { sys.life sv with watch := WatchPc.notified, quit := false })
    else none
  | Step.storeNotReady sv =>
    if (sys.life sv).watch = WatchPc.notified then
      some { sys.setLife sv { sys.life sv with watch := WatchPc.draining } with healthy := 0 }
    else none
  | Step.serverClosed sv =>
    if (sys.life sv).serve = ServePc.serving ∧
        ((sys.life sv).watch = WatchPc.draining ∨ (sys.life sv).watch = WatchPc.done) then
      some (sys.setLife sv { sys.life sv with serve := ServePc.closed })
    else none
  | Step.drained sv =>
    if (sys.life sv).watch = WatchPc.draining then
      some (sys.setLife sv { sys.life sv with watch := WatchPc.done })
    else none
  | Step.stop sv =>
    if (sys.life sv).serve = ServePc.closed ∧ (sys.life sv).watch = WatchPc.done then
      some (sys.setLife sv { sys.life sv with serve := ServePc.stopped })
    else none

/-- A run: the steps taken one after the other, `none` when one of them cannot be
taken. -/
def System.run (sys : System) : List Step → Option System
  | [] => some sys
  | st :: rest =>
    match sys.step st with
    | some sys1 => sys1.run rest
    | none => none

/-- The listener of a server accepts connections: its serving path is inside
`ListenAndServe` and its watcher has not called `Shutdown`. -/
def System.accepting (sys : System) (sv : Server) : Prop :=
  (sys.life sv).serve = ServePc.serving ∧
    ((sys.life sv).watch = WatchPc.waiting ∨ (sys.life sv).watch = WatchPc.notified)

/-- The watcher of a server is in its shutdown sequence: it has stored 0 into the
flag and `Shutdown` has not returned yet. -/
def System.shuttingDown (sys : System) (sv : Server) : Prop :=
  (sys.life sv).watch = WatchPc.draining

/-- No watcher has started its shutdown sequence. -/
def System.noShutdown (sys : System) : Prop :=
  ∀ sv, (sys.life sv).watch = WatchPc.waiting ∨ (sys.life sv).watch = WatchPc.notified

/-- The status with which a `/healthz` request is answered when it is handled in the
given state of the process. -/
def System.healthzStatus (sys : System) : Nat :=
  (healthz (sampleRequest "/healthz" [] none) (sampleWorld sys.healthy)).resp.status

/-- A world in which `/home/zuiurs/bin1` opens and reports its size, and reading it
fails after the first of its three bytes; no other file opens. -/
def brokenReadWorld : World :=
  { sampleWorld 1 with
    fs := fun p =>
      if p = "/home/zuiurs/bin1" then
        some { content := [1, 2, 3], statFails := false, readFailsAt := some 1 }
      else none }

/-- A world in which `/home/zuiurs/bin1` is a readable file of three bytes. -/
def readableWorld : World :=
  { sampleWorld 1 with
    fs := fun p =>
      if p = "/home/zuiurs/bin1" then
        some { content := [1, 2, 3], statFails := false, readFailsAt := none }
      else none }

/-- The copy that `contentBinary path` attempts fails: the file opens, `Stat` succeeds
and reading stops on an error. -/
def copyFails (s : World) (path : String) : Bool :=
  match s.fs path with
  | some f => f.Stat.isSome && (f.readAll).2
  | none => false

/-! ## Lemmas on the library model -/

theorem lookup_filter_ne (h : Header) (k k' : String) (hne : k ≠ k') :
    List.lookup k (h.filter (fun e => !(e.1 == k'))) = List.lookup k h := by
  induction h with
  | nil => rfl
  | cons e t ih =>
    obtain ⟨a, b⟩ := e
    by_cases hk' : a = k'
    · subst hk'
      have hka : (k == a) = false := by simpa using hne
      simp [List.filter, List.lookup, hka, ih]
    · have hak : (a == k') = false := by simpa using hk'
      simp only [List.filter, hak, Bool.not_false]
      by_cases hka : k = a
      · subst hka; simp [List.lookup]
      · have hka' : (k == a) = false := by simpa using hka
        simp [List.lookup, hka', ih]

theorem Header.Get_Set (h : Header) (key value : String) :
    (h.Set key value).Get key = value := by
  simp [Header.Get, Header.Set, Header.lookup, List.lookup]

theorem Header.lookup_Set (h : Header) (key value : String) :
    (h.Set key value).lookup (CanonicalMIMEHeaderKey key) = some [value] := by
  simp [Header.Set, Header.lookup, List.lookup]

theorem Header.Get_Set_ne (h : Header) (key key' value : String)
    (hne : CanonicalMIMEHeaderKey key ≠ CanonicalMIMEHeaderKey key') :
    (h.Set key' value).Get key = h.Get key := by
  have hb : (CanonicalMIMEHeaderKey key == CanonicalMIMEHeaderKey key') = false := by
    simpa using hne
  simp only [Header.Get, Header.Set, Header.lookup, List.lookup, hb]
  rw [lookup_filter_ne h _ _ hne]

theorem Context.Value_WithValue (c : Context) (k : CtxKey) (v : Awget.Value) :
    (c.WithValue k v).Value k = some v := by
  simp [Context.Value, Context.WithValue, List.lookup]

theorem toDigitsCore_ne_nil (b fuel n : Nat) (acc : List Char) :
    Nat.toDigitsCore b (fuel + 1) n acc ≠ [] := by
  induction fuel generalizing n acc with
  | zero =>
    simp only [Nat.toDigitsCore]
    split <;> simp
  | succ f ih =>
    rw [Nat.toDigitsCore]
    split
    · simp
    · exact ih _ _

theorem repr_ne_empty (n : Nat) : Nat.repr n ≠ "" := by
  intro h
  have h1 : (Nat.repr n).data = [] := by rw [h]
  simp only [Nat.repr, Nat.toDigits, List.asString] at h1
  exact toDigitsCore_ne_nil 10 n n [] h1

theorem Itoa_ne_empty (n : Int) : Itoa n ≠ "" := by
  cases n with
  | ofNat m => exact repr_ne_empty m
  | negSucc m =>
    intro h
    have h1 : (Itoa (Int.negSucc m)).length = 0 := by rw [h]; rfl
    simp only [Itoa, String.length_append, Nat.add_eq_zero] at h1
    exact absurd h1.1 (by decide)

/-! ## The tracing middleware -/

theorem canonical_requestID : CanonicalMIMEHeaderKey "X-Request-Id" = "X-Request-Id" := by
  decide

/-- The equation of `tracing` and the two places where the chosen identifier is put. -/
theorem tracing_equation (gen : World → String × World) (next : Handler)
    (r : Request) (s : World) :
    tracing gen next r s =
        next (r.WithContext (r.Context.WithValue requestIDKey
                (Value.str (chooseRequestID gen r s).1)))
          (setHeader "X-Request-Id" (chooseRequestID gen r s).1 (chooseRequestID gen r s).2)
    ∧ (setHeader "X-Request-Id" (chooseRequestID gen r s).1
          (chooseRequestID gen r s).2).resp.header.lookup "X-Request-Id"
        = some [(chooseRequestID gen r s).1] := by
  refine ⟨rfl, ?_⟩
  have h := Header.lookup_Set (chooseRequestID gen r s).2.resp.header "X-Request-Id"
    (chooseRequestID gen r s).1
  rw [canonical_requestID] at h
  exact h

/-- C7: for every generator, next stage, request and world, `tracing` is one call of the
next stage, on the request with the chosen identifier bound to `requestIDKey` in its
context and on the response writer with the same identifier as its `X-Request-Id`
header. -/
theorem tracing_invokes_next_once (gen : World → String × World) (next : Handler)
    (r : Request) (s : World) :
    tracing gen next r s =
        next (r.WithContext (r.Context.WithValue requestIDKey
                (Value.str (chooseRequestID gen r s).1)))
          (setHeader "X-Request-Id" (chooseRequestID gen r s).1 (chooseRequestID gen r s).2)
    ∧ (r.WithContext (r.Context.WithValue requestIDKey
          (Value.str (chooseRequestID gen r s).1))).Context.Value requestIDKey
        = some (Value.str (chooseRequestID gen r s).1)
    ∧ (setHeader "X-Request-Id" (chooseRequestID gen r s).1
          (chooseRequestID gen r s).2).resp.header.lookup "X-Request-Id"
        = some [(chooseRequestID gen r s).1] := by
  refine ⟨rfl, ?_, ?_⟩
  · exact Context.Value_WithValue _ _ _
  · have h := Header.lookup_Set (chooseRequestID gen r s).2.resp.header "X-Request-Id"
      (chooseRequestID gen r s).1
    rw [canonical_requestID] at h
    exact h

/-! ## The routes -/

theorem router_cases (P : World → Prop) (r : Request) (s : World)
    (hText : P (contentText "Hello World!" r s))
    (hSecret : P (basicAuthHandler (contentText "[Secret] Hello World!") r s))
    (hTimeout : P (contentCapriceText "[Timeout] Hello World!" r s))
    (hLarge1 : P (contentBinary "/home/zuiurs/bin1" r s))
    (hLarge2 : P (contentBinary "/home/zuiurs/bin2" r s))
    (hHealthz : P (healthz r s))
    (hNotFound : P (NotFound r s)) :
    P (router.ServeHTTP r s) := by
  unfold ServeMux.ServeHTTP router
  simp only [List.lookup]
  cases (r.URLPath == "/hello") with
  | true => exact hText
  | false =>
  cases (r.URLPath == "/secret/hello") with
  | true => exact hSecret
  | false =>
  cases (r.URLPath == "/timeout/hello") with
  | true => exact hTimeout
  | false =>
  cases (r.URLPath == "/large1") with
  | true => exact hLarge1
  | false =>
  cases (r.URLPath == "/large2") with
  | true => exact hLarge2
  | false =>
  cases (r.URLPath == "/healthz") with
  | true => exact hHealthz
  | false => exact hNotFound

theorem Header.lookup_Set_ne (h : Header) (k key value : String)
    (hne : k ≠ CanonicalMIMEHeaderKey key) :
    (h.Set key value).lookup k = h.lookup k := by
  have hb : (k == CanonicalMIMEHeaderKey key) = false := by simpa using hne
  simp only [Header.Set, Header.lookup, List.lookup, hb]
  exact lookup_filter_ne h _ _ hne

theorem requestID_ne_contentType : "X-Request-Id" ≠ CanonicalMIMEHeaderKey "Content-Type" := by
  decide

theorem requestID_ne_nosniff :
    "X-Request-Id" ≠ CanonicalMIMEHeaderKey "X-Content-Type-Options" := by
  decide

theorem requestID_ne_authenticate :
    "X-Request-Id" ≠ CanonicalMIMEHeaderKey "WWW-Authenticate" := by
  decide

theorem requestID_ne_contentLength :
    "X-Request-Id" ≠ CanonicalMIMEHeaderKey "Content-Length" := by
  decide

/-- What `http.Error` does to a response of which nothing has been written. -/
theorem Error_fresh (msg : String) (code : Nat) (s : World) (hw : s.resp.wroteHeader = false) :
    (Error msg code s).resp.wroteHeader = true
    ∧ (Error msg code s).resp.status = code
    ∧ (Error msg code s).resp.sent =
        (s.resp.header.Set "Content-Type" "text/plain; charset=utf-8").Set
          "X-Content-Type-Options" "nosniff"
    ∧ (Error msg code s).stdout = s.stdout
    ∧ (Error msg code s).healthy = s.healthy := by
  unfold Error Fprintln Write
  simp only [WriteHeader, setHeader, hw]
  simp
  split <;> simp

theorem Sprintln_single (str : String) : Sprintln [str] = str ++ "\n" := rfl

/-- What `contentText` does to a response of which no status line has been written. -/
theorem contentText_fresh (str : String) (r : Request) (s : World)
    (hw : s.resp.wroteHeader = false) :
    (contentText str r s).resp.wroteHeader = true
    ∧ (contentText str r s).resp.status = 200
    ∧ (contentText str r s).resp.sent =
        s.resp.header.Set "Content-Type" "text/plain; charset=utf-8"
    ∧ (contentText str r s).resp.body = s.resp.body ++ bytesOf (str ++ "\n")
    ∧ (contentText str r s).stdout = s.stdout
    ∧ (contentText str r s).healthy = s.healthy := by
  unfold contentText Fprintln Write
  simp only [WriteHeader, setHeader, hw, Sprintln_single]
  simp [StatusOK, bodyAllowedForStatus]

/-- What `healthz` does to a response of which no status line has been written. -/
theorem healthz_fresh (r : Request) (s : World) (hw : s.resp.wroteHeader = false) :
    (healthz r s).resp.wroteHeader = true
    ∧ (healthz r s).resp.status = (if s.healthy = 1 then 204 else 503)
    ∧ (healthz r s).resp.sent = s.resp.header
    ∧ (healthz r s).resp.body = s.resp.body
    ∧ (healthz r s).stdout = s.stdout
    ∧ (healthz r s).healthy = s.healthy := by
  unfold healthz
  by_cases h : s.healthy = 1
  · simp [h, WriteHeader, hw, StatusNoContent]
  · simp [h, WriteHeader, hw, StatusServiceUnavailable]

theorem router_hello (r : Request) (s : World) (hp : r.URLPath = "/hello") :
    router.ServeHTTP r s = contentText "Hello World!" r s := by
  simp [ServeMux.ServeHTTP, router, List.lookup, hp]

theorem router_secret (r : Request) (s : World) (hp : r.URLPath = "/secret/hello") :
    router.ServeHTTP r s = basicAuthHandler (contentText "[Secret] Hello World!") r s := by
  simp [ServeMux.ServeHTTP, router, List.lookup, hp]

theorem router_healthz (r : Request) (s : World) (hp : r.URLPath = "/healthz") :
    router.ServeHTTP r s = healthz r s := by
  simp [ServeMux.ServeHTTP, router, List.lookup, hp]

theorem router_large1 (r : Request) (s : World) (hp : r.URLPath = "/large1") :
    router.ServeHTTP r s = contentBinary "/home/zuiurs/bin1" r s := by
  simp [ServeMux.ServeHTTP, router, List.lookup, hp]

/-! ## The readiness handler -/

/-- C6: for every value of the flag and every request, on a response of which nothing
has been written, `healthz` answers 204 when the flag holds 1 and 503 for every other
value, leaves the body empty and leaves the flag as it was. -/
theorem healthz_reports_flag (r : Request) (s : World) (hfresh : s.fresh) :
    (s.healthy = 1 → (healthz r s).resp.status = 204)
    ∧ (s.healthy ≠ 1 → (healthz r s).resp.status = 503)
    ∧ (healthz r s).resp.wroteHeader = true
    ∧ (healthz r s).resp.body = []
    ∧ (healthz r s).healthy = s.healthy := by
  obtain ⟨h1, h2, _, h4, _, h6⟩ := healthz_fresh r s hfresh.1
  refine ⟨fun h => ?_, fun h => ?_, h1, ?_, h6⟩
  · rw [h2, if_pos h]
  · rw [h2, if_neg h]
  · rw [h4, hfresh.2]

theorem healthz_reports_flag_witness :
    (sampleWorld 0).fresh
    ∧ (healthz (sampleRequest "/healthz" [] none) (sampleWorld 0)).resp.status = 503
    ∧ (healthz (sampleRequest "/healthz" [] none) (sampleWorld 0)).resp.body = [] :=
  ⟨⟨rfl, rfl⟩,
    (healthz_reports_flag (sampleRequest "/healthz" [] none) (sampleWorld 0) ⟨rfl, rfl⟩).2.1
      (by decide),
    (healthz_reports_flag (sampleRequest "/healthz" [] none) (sampleWorld 0) ⟨rfl, rfl⟩).2.2.2.1⟩

/-! ## The text handler -/

/-- C10, as the claim states it, fails: the body that `contentText "Hello World!"` writes
is not the twelve bytes of "Hello World!"; it is those bytes and a line feed. -/
theorem contentText_body_not_exact :
    (contentText "Hello World!" (sampleRequest "/hello" [] none) (sampleWorld 1)).resp.body
        ≠ bytesOf "Hello World!"
    ∧ (contentText "Hello World!" (sampleRequest "/hello" [] none) (sampleWorld 1)).resp.body
        = bytesOf "Hello World!" ++ [10] := by
  decide

/-- C10, amended: for every string and every request, on a response of which nothing has
been written, `contentText str` answers 200 with `Content-Type: text/plain; charset=utf-8`
and a body that is `str` followed by one line feed; the router answers `/hello` with the
bytes of "Hello World!" and a line feed and, for the credentials that `basicAuthHandler`
accepts, `/secret/hello` with the bytes of "[Secret] Hello World!" and a line feed. -/
theorem contentText_body_line (str : String) (r : Request) (s : World) (hfresh : s.fresh) :
    (contentText str r s).resp.status = 200
    ∧ (contentText str r s).resp.sent.Get "Content-Type" = "text/plain; charset=utf-8"
    ∧ (contentText str r s).resp.body = bytesOf (str ++ "\n")
    ∧ (r.URLPath = "/hello" →
        (router.ServeHTTP r s).resp.body = bytesOf "Hello World!\n")
    ∧ (r.URLPath = "/secret/hello" → r.BasicAuth = ("hello", "world", true) →
        (router.ServeHTTP r s).resp.body = bytesOf "[Secret] Hello World!\n") := by
  have key : ∀ t : String, (contentText t r s).resp.body = bytesOf (t ++ "\n") := by
    intro t
    rw [(contentText_fresh t r s hfresh.1).2.2.2.1, hfresh.2, List.nil_append]
  obtain ⟨_, h2, h3, _⟩ := contentText_fresh str r s hfresh.1
  refine ⟨h2, ?_, key str, ?_, ?_⟩
  · rw [h3, Header.Get_Set]
  · intro hp
    rw [router_hello r s hp]
    exact key "Hello World!"
  · intro hp hcred
    rw [router_secret r s hp]
    have hb : basicAuthHandler (contentText "[Secret] Hello World!") r s
        = contentText "[Secret] Hello World!" r s := by
      simp [basicAuthHandler, hcred, auth, user, password]
    rw [hb]
    exact key "[Secret] Hello World!"

theorem contentText_body_line_witness :
    (sampleWorld 1).fresh
    ∧ (router.ServeHTTP (sampleRequest "/hello" [] none) (sampleWorld 1)).resp.body
        = bytesOf "Hello World!\n" :=
  ⟨⟨rfl, rfl⟩,
    (contentText_body_line "Hello World!" (sampleRequest "/hello" [] none) (sampleWorld 1)
      ⟨rfl, rfl⟩).2.2.2.1 rfl⟩

/-! ## The Basic authentication gate -/

theorem authenticate_key :
    CanonicalMIMEHeaderKey "WWW-Authenticate" ≠ CanonicalMIMEHeaderKey "Content-Type"
    ∧ CanonicalMIMEHeaderKey "WWW-Authenticate"
        ≠ CanonicalMIMEHeaderKey "X-Content-Type-Options" := by
  decide

/-- C3: for every wrapped handler and every request, on a response of which nothing has
been written: with the credentials `hello` / `world`, `basicAuthHandler` is the wrapped
handler (and the router answers `/secret/hello` with 200); with any other credentials,
or none, it is `http.Error` with 401 on the response with the `WWW-Authenticate`
challenge set, an expression in which the wrapped handler does not occur, and the
response has status 401 and the header `WWW-Authenticate: Basic realm="SECRET AREA"`. -/
theorem basicAuthHandler_gate (handler : Handler) (r : Request) (s : World)
    (hfresh : s.fresh) :
    (r.BasicAuth = ("hello", "world", true) →
        basicAuthHandler handler r s = handler r s
        ∧ (r.URLPath = "/secret/hello" → (router.ServeHTTP r s).resp.status = 200))
    ∧ (r.BasicAuth ≠ ("hello", "world", true) →
        basicAuthHandler handler r s =
          Error ("Unauthorized user: " ++ r.BasicAuth.1 ++ ", " ++ r.BasicAuth.2.1 ++ ", "
              ++ fmtBool r.BasicAuth.2.2) StatusUnauthorized
            (setHeader "WWW-Authenticate" "Basic realm=\"SECRET AREA\"" s)
        ∧ (basicAuthHandler handler r s).resp.wroteHeader = true
        ∧ (basicAuthHandler handler r s).resp.status = 401
        ∧ (basicAuthHandler handler r s).resp.sent.Get "WWW-Authenticate"
            = "Basic realm=\"SECRET AREA\"") := by
  constructor
  · intro hcred
    have hb : ∀ h : Handler, basicAuthHandler h r s = h r s := by
      intro h
      simp [basicAuthHandler, hcred, auth, user, password]
    refine ⟨hb handler, fun hp => ?_⟩
    rw [router_secret r s hp, hb]
    exact (contentText_fresh _ r s hfresh.1).2.1
  · intro hcred
    have hb : basicAuthHandler handler r s =
          Error ("Unauthorized user: " ++ r.BasicAuth.1 ++ ", " ++ r.BasicAuth.2.1 ++ ", "
              ++ fmtBool r.BasicAuth.2.2) StatusUnauthorized
            (setHeader "WWW-Authenticate" "Basic realm=\"SECRET AREA\"" s) := by
      rcases hba : r.BasicAuth with ⟨u, p, ok⟩
      rw [hba] at hcred
      have hcond : (!ok || !auth u p) = true := by
        cases ok with
        | false => rfl
        | true =>
          have hne : ¬ (u = "hello" ∧ p = "world") := by
            rintro ⟨rfl, rfl⟩
            exact hcred rfl
          have : auth u p = false := by
            simp only [auth, user, password, Bool.and_eq_false_iff, beq_eq_false_iff_ne]
            by_cases hu : u = "hello"
            · right; intro hp; exact hne ⟨hu, hp.symm⟩
            · left; intro hu2; exact hu hu2.symm
          simp [this]
      simp only [basicAuthHandler, hba, hcond, if_true]
    have hw : (setHeader "WWW-Authenticate" "Basic realm=\"SECRET AREA\"" s).resp.wroteHeader
        = false := hfresh.1
    obtain ⟨e1, e2, e3, _⟩ := Error_fresh ("Unauthorized user: " ++ r.BasicAuth.1 ++ ", "
      ++ r.BasicAuth.2.1 ++ ", " ++ fmtBool r.BasicAuth.2.2) StatusUnauthorized _ hw
    refine ⟨hb, ?_, ?_, ?_⟩
    · rw [hb]; exact e1
    · rw [hb]; exact e2
    · rw [hb, e3, Header.Get_Set_ne _ _ _ _ authenticate_key.2,
        Header.Get_Set_ne _ _ _ _ authenticate_key.1]
      exact Header.Get_Set _ _ _

theorem basicAuthHandler_gate_witness :
    (sampleWorld 1).fresh
    ∧ (basicAuthHandler healthz (sampleRequest "/secret/hello" [] (some ("hello", "World")))
        (sampleWorld 1)).resp.status = 401 :=
  ⟨⟨rfl, rfl⟩,
    ((basicAuthHandler_gate healthz (sampleRequest "/secret/hello" [] (some ("hello", "World")))
      (sampleWorld 1) ⟨rfl, rfl⟩).2 (by decide)).2.2.1⟩

/-! ## The binary handler -/

theorem contentLength_keys :
    CanonicalMIMEHeaderKey "Content-Type" ≠ CanonicalMIMEHeaderKey "Content-Length" := by
  decide

/-- The file cannot be opened: `contentBinary` answers 500. -/
theorem contentBinary_open_failure (path : String) (r : Request) (s : World)
    (hw : s.resp.wroteHeader = false) (hopen : s.fs path = none) :
    (contentBinary path r s).resp.wroteHeader = true
    ∧ (contentBinary path r s).resp.status = 500 := by
  have hb : contentBinary path r s = Error "File Open Error" StatusInternalServerError s := by
    simp [contentBinary, hopen]
  rw [hb]
  exact ⟨(Error_fresh _ _ s hw).1, (Error_fresh _ _ s hw).2.1⟩

/-- The size of the file cannot be read: `contentBinary` answers 500. -/
theorem contentBinary_stat_failure (path : String) (r : Request) (s : World) (f : File)
    (hw : s.resp.wroteHeader = false) (hopen : s.fs path = some f) (hstat : f.Stat = none) :
    (contentBinary path r s).resp.wroteHeader = true
    ∧ (contentBinary path r s).resp.status = 500 := by
  have hb : contentBinary path r s
      = Error "Get file stat error" StatusInternalServerError s := by
    simp [contentBinary, hopen, hstat]
  rw [hb]
  exact ⟨(Error_fresh _ _ s hw).1, (Error_fresh _ _ s hw).2.1⟩

/-- C4, the failing case: in `brokenReadWorld` the file opens, `Stat` succeeds and the
copy fails after one byte; `contentBinary` leaves the response with the status 200 that
it wrote before the copy, not 500, and the second `WriteHeader` call, made by
`http.Error`, only puts a line on the server's error log. -/
theorem contentBinary_copy_failure_status :
    brokenReadWorld.fresh
    ∧ (Copy { content := [1, 2, 3], statFails := false, readFailsAt := some 1 }
        brokenReadWorld).1 = true
    ∧ (contentBinary "/home/zuiurs/bin1" (sampleRequest "/large1" [] none)
        brokenReadWorld).resp.status = 200
    ∧ (contentBinary "/home/zuiurs/bin1" (sampleRequest "/large1" [] none)
        brokenReadWorld).resp.status ≠ 500
    ∧ (contentBinary "/home/zuiurs/bin1" (sampleRequest "/large1" [] none)
        brokenReadWorld).resp.body = [1] ++ bytesOf "Write Error\n"
    ∧ (contentBinary "/home/zuiurs/bin1" (sampleRequest "/large1" [] none)
        brokenReadWorld).stdout = ["http: http: superfluous response.WriteHeader call\n"] := by
  refine ⟨⟨rfl, rfl⟩, ?_, ?_, ?_, ?_, ?_⟩ <;> decide

/-- C9: for every path and request, on a response of which nothing has been written,
when the file opens, `Stat` reports `size` and the copy ends without error,
`contentBinary` answers 200 with `Content-Type: application/octet-stream`, a
`Content-Length` header that is the decimal rendering of `size`, and the bytes of the
file as body, whose number is `size` and is the number that `Content-Length` renders. -/
theorem contentBinary_success (path : String) (r : Request) (s : World) (f : File)
    (size : Int) (hfresh : s.fresh) (hopen : s.fs path = some f)
    (hstat : f.Stat = some size) (hcopy : (Copy f (WriteHeader StatusOK
      (setHeader "Content-Length" (Itoa size)
        (setHeader "Content-Type" "application/octet-stream" s)))).1 = false) :
    (contentBinary path r s).resp.wroteHeader = true
    ∧ (contentBinary path r s).resp.status = 200
    ∧ (contentBinary path r s).resp.sent.Get "Content-Type" = "application/octet-stream"
    ∧ (contentBinary path r s).resp.sent.Get "Content-Length" = Itoa size
    ∧ (contentBinary path r s).resp.body = f.content
    ∧ ((contentBinary path r s).resp.body.length : Int) = size
    ∧ (contentBinary path r s).resp.sent.Get "Content-Length"
        = Itoa ((contentBinary path r s).resp.body.length : Int) := by
  have hsize : size = (f.content.length : Int) := by
    unfold File.Stat at hstat
    split at hstat
    · exact absurd hstat (by simp)
    · exact (Option.some.inj hstat).symm
  have hread : f.readAll = (f.content, false) := by
    unfold Copy File.readAll at hcopy
    unfold File.readAll
    cases hr : f.readFailsAt with
    | none => rfl
    | some n => rw [hr] at hcopy; exact absurd hcopy (by simp)
  have hb : contentBinary path r s =
      Write f.content (WriteHeader StatusOK (setHeader "Content-Length" (Itoa size)
        (setHeader "Content-Type" "application/octet-stream" s))) := by
    simp [contentBinary, hopen, hstat, Copy, hread]
  have hout : (contentBinary path r s).resp.wroteHeader = true
      ∧ (contentBinary path r s).resp.status = 200
      ∧ (contentBinary path r s).resp.sent
          = (s.resp.header.Set "Content-Type" "application/octet-stream").Set
              "Content-Length" (Itoa size)
      ∧ (contentBinary path r s).resp.body = f.content := by
    rw [hb]
    simp [Write, WriteHeader, setHeader, hfresh.1, hfresh.2, StatusOK, bodyAllowedForStatus]
  obtain ⟨o1, o2, o3, o4⟩ := hout
  have hlen : (contentBinary path r s).resp.sent.Get "Content-Length" = Itoa size := by
    rw [o3]; exact Header.Get_Set _ _ _
  refine ⟨o1, o2, ?_, hlen, o4, ?_, ?_⟩
  · rw [o3, Header.Get_Set_ne _ _ _ _ contentLength_keys]
    exact Header.Get_Set _ _ _
  · rw [o4, hsize]
  · rw [hlen, o4, hsize]

theorem contentBinary_success_witness :
    readableWorld.fresh
    ∧ (contentBinary "/home/zuiurs/bin1" (sampleRequest "/large1" [] none)
        readableWorld).resp.sent.Get "Content-Length" = "3"
    ∧ (contentBinary "/home/zuiurs/bin1" (sampleRequest "/large1" [] none)
        readableWorld).resp.body = [1, 2, 3] :=
  ⟨⟨rfl, rfl⟩,
    (contentBinary_success "/home/zuiurs/bin1" (sampleRequest "/large1" [] none) readableWorld
      { content := [1, 2, 3], statFails := false, readFailsAt := none } 3 ⟨rfl, rfl⟩
      (by decide) (by decide) (by decide)).2.2.2.1,
    (contentBinary_success "/home/zuiurs/bin1" (sampleRequest "/large1" [] none) readableWorld
      { content := [1, 2, 3], statFails := false, readFailsAt := none } 3 ⟨rfl, rfl⟩
      (by decide) (by decide) (by decide)).2.2.2.2.1⟩

/-! ## What the routes leave of the headers and of the log -/

/-- The summary of a handler run that the chain needs: the status line has been written,
the `X-Request-Id` entry sent is the one the header map had on entry. -/
theorem Error_sends_requestID (msg : String) (code : Nat) (s : World)
    (hw : s.resp.wroteHeader = false) :
    (Error msg code s).resp.wroteHeader = true
    ∧ (Error msg code s).resp.sent.lookup "X-Request-Id" = s.resp.header.lookup "X-Request-Id"
    ∧ (Error msg code s).stdout = s.stdout := by
  obtain ⟨e1, _, e3, e4, _⟩ := Error_fresh msg code s hw
  refine ⟨e1, ?_, e4⟩
  rw [e3, Header.lookup_Set_ne _ _ _ _ requestID_ne_nosniff,
    Header.lookup_Set_ne _ _ _ _ requestID_ne_contentType]

theorem contentText_sends_requestID (str : String) (r : Request) (s : World)
    (hw : s.resp.wroteHeader = false) :
    (contentText str r s).resp.wroteHeader = true
    ∧ (contentText str r s).resp.sent.lookup "X-Request-Id"
        = s.resp.header.lookup "X-Request-Id"
    ∧ (contentText str r s).stdout = s.stdout := by
  obtain ⟨e1, _, e3, _, e5, _⟩ := contentText_fresh str r s hw
  refine ⟨e1, ?_, e5⟩
  rw [e3, Header.lookup_Set_ne _ _ _ _ requestID_ne_contentType]

theorem basicAuthHandler_sends_requestID (str : String) (r : Request) (s : World)
    (hw : s.resp.wroteHeader = false) :
    (basicAuthHandler (contentText str) r s).resp.wroteHeader = true
    ∧ (basicAuthHandler (contentText str) r s).resp.sent.lookup "X-Request-Id"
        = s.resp.header.lookup "X-Request-Id"
    ∧ (basicAuthHandler (contentText str) r s).stdout = s.stdout := by
  unfold basicAuthHandler
  rcases r.BasicAuth with ⟨u, p, ok⟩
  simp only
  split
  · obtain ⟨e1, e2, e3⟩ := Error_sends_requestID
      ("Unauthorized user: " ++ u ++ ", " ++ p ++ ", " ++ fmtBool ok) StatusUnauthorized
      (setHeader "WWW-Authenticate" "Basic realm=\"SECRET AREA\"" s) hw
    refine ⟨e1, ?_, e3⟩
    rw [e2]
    exact Header.lookup_Set_ne _ _ _ _ requestID_ne_authenticate
  · exact contentText_sends_requestID str r s hw

theorem contentCapriceText_sends_requestID (str : String) (r : Request) (s : World)
    (hw : s.resp.wroteHeader = false) :
    (contentCapriceText str r s).resp.wroteHeader = true
    ∧ (contentCapriceText str r s).resp.sent.lookup "X-Request-Id"
        = s.resp.header.lookup "X-Request-Id"
    ∧ (contentCapriceText str r s).stdout = s.stdout := by
  unfold contentCapriceText
  simp only [Intn]
  split
  · exact contentText_sends_requestID str r (Sleep _ _) hw
  · exact contentText_sends_requestID str r _ hw

theorem healthz_sends_requestID (r : Request) (s : World)
    (hw : s.resp.wroteHeader = false) :
    (healthz r s).resp.wroteHeader = true
    ∧ (healthz r s).resp.sent.lookup "X-Request-Id" = s.resp.header.lookup "X-Request-Id"
    ∧ (healthz r s).stdout = s.stdout := by
  obtain ⟨e1, _, e3, _, e5, _⟩ := healthz_fresh r s hw
  exact ⟨e1, by rw [e3], e5⟩

theorem contentBinary_sends_requestID (path : String) (r : Request) (s : World)
    (hw : s.resp.wroteHeader = false) :
    (contentBinary path r s).resp.wroteHeader = true
    ∧ (contentBinary path r s).resp.sent.lookup "X-Request-Id"
        = s.resp.header.lookup "X-Request-Id"
    ∧ (copyFails s path = false → (contentBinary path r s).stdout = s.stdout) := by
  cases hopen : s.fs path with
  | none =>
    have hb : contentBinary path r s = Error "File Open Error" StatusInternalServerError s := by
      simp [contentBinary, hopen]
    obtain ⟨e1, e2, e3⟩ := Error_sends_requestID "File Open Error" StatusInternalServerError s hw
    rw [hb]
    exact ⟨e1, e2, fun _ => e3⟩
  | some f =>
    cases hstat : f.Stat with
    | none =>
      have hb : contentBinary path r s
          = Error "Get file stat error" StatusInternalServerError s := by
        simp [contentBinary, hopen, hstat]
      obtain ⟨e1, e2, e3⟩ :=
        Error_sends_requestID "Get file stat error" StatusInternalServerError s hw
      rw [hb]
      exact ⟨e1, e2, fun _ => e3⟩
    | some size =>
      have hkeep : ((s.resp.header.Set "Content-Type" "application/octet-stream").Set
          "Content-Length" (Itoa size)).lookup "X-Request-Id"
          = s.resp.header.lookup "X-Request-Id" := by
        rw [Header.lookup_Set_ne _ _ _ _ requestID_ne_contentLength,
          Header.lookup_Set_ne _ _ _ _ requestID_ne_contentType]
      cases herr : (f.readAll).2 with
      | false =>
        have hb : contentBinary path r s =
            Write (f.readAll).1 (WriteHeader StatusOK (setHeader "Content-Length" (Itoa size)
              (setHeader "Content-Type" "application/octet-stream" s))) := by
          simp [contentBinary, hopen, hstat, Copy, herr]
        rw [hb]
        simp [Write, WriteHeader, setHeader, hw, StatusOK, bodyAllowedForStatus, hkeep]
      | true =>
        have hb : contentBinary path r s =
            Error "Write Error" StatusInternalServerError
              (Write (f.readAll).1 (WriteHeader StatusOK (setHeader "Content-Length" (Itoa size)
                (setHeader "Content-Type" "application/octet-stream" s)))) := by
          simp [contentBinary, hopen, hstat, Copy, herr]
        have hc : copyFails s path = true := by
          simp [copyFails, hopen, hstat, herr]
        rw [hb, hc]
        simp [Write, WriteHeader, setHeader, hw, StatusOK, bodyAllowedForStatus, hkeep, Error,
          Fprintln, Logger.Println]

theorem NotFound_sends_requestID (r : Request) (s : World)
    (hw : s.resp.wroteHeader = false) :
    (NotFound r s).resp.wroteHeader = true
    ∧ (NotFound r s).resp.sent.lookup "X-Request-Id" = s.resp.header.lookup "X-Request-Id"
    ∧ (NotFound r s).stdout = s.stdout :=
  Error_sends_requestID "404 page not found" StatusNotFound s hw

/-- Every route, and the answer to a path without route, writes the status line with
the `X-Request-Id` entry that the header map had on entry. -/
theorem router_sends_requestID (r : Request) (s : World) (hw : s.resp.wroteHeader = false) :
    (router.ServeHTTP r s).resp.wroteHeader = true
    ∧ (router.ServeHTTP r s).resp.sent.lookup "X-Request-Id"
        = s.resp.header.lookup "X-Request-Id" := by
  apply router_cases
    (fun out => out.resp.wroteHeader = true
      ∧ out.resp.sent.lookup "X-Request-Id" = s.resp.header.lookup "X-Request-Id")
  · exact ⟨(contentText_sends_requestID _ r s hw).1, (contentText_sends_requestID _ r s hw).2.1⟩
  · exact ⟨(basicAuthHandler_sends_requestID _ r s hw).1,
      (basicAuthHandler_sends_requestID _ r s hw).2.1⟩
  · exact ⟨(contentCapriceText_sends_requestID _ r s hw).1,
      (contentCapriceText_sends_requestID _ r s hw).2.1⟩
  · exact ⟨(contentBinary_sends_requestID _ r s hw).1,
      (contentBinary_sends_requestID _ r s hw).2.1⟩
  · exact ⟨(contentBinary_sends_requestID _ r s hw).1,
      (contentBinary_sends_requestID _ r s hw).2.1⟩
  · exact ⟨(healthz_sends_requestID r s hw).1, (healthz_sends_requestID r s hw).2.1⟩
  · exact ⟨(NotFound_sends_requestID r s hw).1, (NotFound_sends_requestID r s hw).2.1⟩

/-- Every route leaves the log as it was, the two binary routes when their copy does
not fail. -/
theorem router_keeps_log (r : Request) (s : World) (hw : s.resp.wroteHeader = false)
    (h1 : r.URLPath = "/large1" → copyFails s "/home/zuiurs/bin1" = false)
    (h2 : r.URLPath = "/large2" → copyFails s "/home/zuiurs/bin2" = false) :
    (router.ServeHTTP r s).stdout = s.stdout := by
  by_cases hp1 : r.URLPath = "/large1"
  · rw [router_large1 r s hp1]
    exact (contentBinary_sends_requestID _ r s hw).2.2 (h1 hp1)
  · by_cases hp2 : r.URLPath = "/large2"
    · have hb : router.ServeHTTP r s = contentBinary "/home/zuiurs/bin2" r s := by
        simp [ServeMux.ServeHTTP, router, List.lookup, hp2]
      rw [hb]
      exact (contentBinary_sends_requestID _ r s hw).2.2 (h2 hp2)
    · have hb1 : (r.URLPath == "/large1") = false := by simpa using hp1
      have hb2 : (r.URLPath == "/large2") = false := by simpa using hp2
      unfold ServeMux.ServeHTTP router
      simp only [List.lookup, hb1, hb2]
      cases (r.URLPath == "/hello") with
      | true => exact (contentText_sends_requestID _ r s hw).2.2
      | false =>
      cases (r.URLPath == "/secret/hello") with
      | true => exact (basicAuthHandler_sends_requestID _ r s hw).2.2
      | false =>
      cases (r.URLPath == "/timeout/hello") with
      | true => exact (contentCapriceText_sends_requestID _ r s hw).2.2
      | false =>
      cases (r.URLPath == "/healthz") with
      | true => exact (healthz_sends_requestID r s hw).2.2
      | false => exact (NotFound_sends_requestID r s hw).2.2

/-- The chain unfolded: the log line of `logging` is put after the run of the wrapped
stage, on the request and response writer that `tracing` prepared. -/
theorem chain_unfold (gen : World → String × World) (logger : Logger) (next : Handler)
    (r : Request) (s : World) :
    tracing gen (logging logger next) r s =
      logger.Println [(chooseRequestID gen r s).1, r.Method, r.URLPath, r.RemoteAddr,
          r.UserAgent]
        (next (r.WithContext (r.Context.WithValue requestIDKey
            (Value.str (chooseRequestID gen r s).1)))
          (setHeader "X-Request-Id" (chooseRequestID gen r s).1 (chooseRequestID gen r s).2)) := by
  simp [tracing, logging, Request.WithContext, Request.Context, Context.WithValue,
    Context.Value, List.lookup, Request.UserAgent]

/-- The response of the chain over the router carries the chosen identifier. -/
theorem chain_response_requestID (gen : World → String × World) (logger : Logger)
    (r : Request) (s : World) (hw : (chooseRequestID gen r s).2.resp.wroteHeader = false) :
    (tracing gen (logging logger router.ServeHTTP) r s).resp.wroteHeader = true
    ∧ (tracing gen (logging logger router.ServeHTTP) r s).resp.sent.lookup "X-Request-Id"
        = some [(chooseRequestID gen r s).1] := by
  rw [chain_unfold]
  have hset := Header.lookup_Set (chooseRequestID gen r s).2.resp.header "X-Request-Id"
    (chooseRequestID gen r s).1
  rw [canonical_requestID] at hset
  obtain ⟨e1, e2⟩ := router_sends_requestID
    (r.WithContext (r.Context.WithValue requestIDKey (Value.str (chooseRequestID gen r s).1)))
    (setHeader "X-Request-Id" (chooseRequestID gen r s).1 (chooseRequestID gen r s).2) hw
  exact ⟨e1, e2.trans hset⟩

/-! ## The correlation identifier -/

/-- C1, as the claim states it, fails: the request carries `X-Request-Id` with the empty
string as its value; the response of the chain does not carry the empty string but
"42", the rendering of the clock reading, and the generator has taken that reading
from the clock. -/
theorem tracing_empty_supplied_id_replaced :
    (sampleRequest "/hello" [("X-Request-Id", [""])] none).Header.lookup "X-Request-Id"
        = some [""]
    ∧ (serverHandler httpLogger (sampleRequest "/hello" [("X-Request-Id", [""])] none)
        (sampleWorld 1)).resp.sent.lookup "X-Request-Id" = some ["42"]
    ∧ (sampleWorld 1).clock 0 = 42
    ∧ (serverHandler httpLogger (sampleRequest "/hello" [("X-Request-Id", [""])] none)
        (sampleWorld 1)).clock 0 = 43 := by
  decide

/-- C1, amended: for every generator, next stage, request and world, when the first
value of the request's `X-Request-Id` header is not the empty string, `tracing` is one
call of the next stage with that value as the only value of the response writer's
`X-Request-Id` header and as the identifier in the context, an expression in which the
generator does not occur; and the answer of the chain over the router, on a response of
which no status line has been written, carries exactly that value. -/
theorem tracing_reuses_supplied_id (gen : World → String × World) (next : Handler)
    (logger : Logger) (r : Request) (s : World)
    (hid : r.Header.Get "X-Request-Id" ≠ "") :
    tracing gen next r s =
        next (r.WithContext (r.Context.WithValue requestIDKey
                (Value.str (r.Header.Get "X-Request-Id"))))
          (setHeader "X-Request-Id" (r.Header.Get "X-Request-Id") s)
    ∧ (setHeader "X-Request-Id" (r.Header.Get "X-Request-Id") s).resp.header.lookup
          "X-Request-Id" = some [r.Header.Get "X-Request-Id"]
    ∧ (s.resp.wroteHeader = false →
        (tracing gen (logging logger router.ServeHTTP) r s).resp.sent.lookup "X-Request-Id"
          = some [r.Header.Get "X-Request-Id"]) := by
  have hc : chooseRequestID gen r s = (r.Header.Get "X-Request-Id", s) := by
    simp [chooseRequestID, hid]
  have h7 := tracing_equation gen next r s
  rw [hc] at h7
  refine ⟨h7.1, h7.2, fun hw => ?_⟩
  have h := (chain_response_requestID gen logger r s (by rw [hc]; exact hw)).2
  rw [hc] at h
  exact h

theorem tracing_reuses_supplied_id_witness :
    (sampleRequest "/hello" [("X-Request-Id", ["abc", "def"])] none).Header.Get "X-Request-Id"
        ≠ ""
    ∧ (serverHandler httpLogger (sampleRequest "/hello" [("X-Request-Id", ["abc", "def"])] none)
        (sampleWorld 1)).resp.sent.lookup "X-Request-Id" = some ["abc"] :=
  ⟨by decide,
    (tracing_reuses_supplied_id nextRequestID healthz httpLogger
      (sampleRequest "/hello" [("X-Request-Id", ["abc", "def"])] none) (sampleWorld 1)
      (by decide)).2.2 rfl⟩

/-- C8: for every next stage, request and world, when the request has no `X-Request-Id`
header, `tracing nextRequestID` is one call of the next stage with the decimal rendering
of the clock reading as the only value of the response writer's `X-Request-Id` header;
that rendering is not the empty string, whatever the reading; and the answer of the
chain over the router, on a response of which no status line has been written, carries
it. -/
theorem tracing_generates_id (next : Handler) (logger : Logger) (r : Request) (s : World)
    (habsent : r.Header.lookup "X-Request-Id" = none) :
    tracing nextRequestID next r s =
        next (r.WithContext (r.Context.WithValue requestIDKey (Value.str (Itoa (s.clock 0)))))
          (setHeader "X-Request-Id" (Itoa (s.clock 0)) (UnixNano s).2)
    ∧ (setHeader "X-Request-Id" (Itoa (s.clock 0)) (UnixNano s).2).resp.header.lookup
          "X-Request-Id" = some [Itoa (s.clock 0)]
    ∧ (nextRequestID s).1 = Itoa (s.clock 0)
    ∧ (∀ t : Int, Itoa t ≠ "" ∧ 1 ≤ (Itoa t).length)
    ∧ (s.resp.wroteHeader = false →
        (serverHandler logger r s).resp.sent.lookup "X-Request-Id" = some [Itoa (s.clock 0)]) := by
  have hget : r.Header.Get "X-Request-Id" = "" := by
    simp [Header.Get, canonical_requestID, habsent]
  have hc : chooseRequestID nextRequestID r s = (Itoa (s.clock 0), (UnixNano s).2) := by
    simp [chooseRequestID, hget, nextRequestID, UnixNano]
  have h7 := tracing_equation nextRequestID next r s
  rw [hc] at h7
  refine ⟨h7.1, h7.2, rfl, fun t => ⟨Itoa_ne_empty t, ?_⟩, fun hw => ?_⟩
  · have hne := Itoa_ne_empty t
    rcases hlen : (Itoa t).length with _ | n
    · exact absurd (String.ext (List.length_eq_zero.mp hlen)) hne
    · omega
  · have h := (chain_response_requestID nextRequestID logger r s (by rw [hc]; exact hw)).2
    rw [hc] at h
    exact h

theorem tracing_generates_id_witness :
    (sampleRequest "/hello" [] none).Header.lookup "X-Request-Id" = none
    ∧ (serverHandler httpLogger (sampleRequest "/hello" [] none)
        (sampleWorld 1)).resp.sent.lookup "X-Request-Id" = some ["42"] :=
  ⟨rfl,
    (tracing_generates_id healthz httpLogger (sampleRequest "/hello" [] none) (sampleWorld 1)
      rfl).2.2.2.2 rfl⟩

/-! ## The log line -/

/-- C2, as the claim states it, fails: for a request that supplies `X-Request-Id: unknown`
the one line that the chain logs has the literal "unknown" as its correlation
identifier. -/
theorem chain_logs_supplied_unknown :
    (serverHandler httpLogger
        (sampleRequest "/hello"
          [("X-Request-Id", ["unknown"]), ("User-Agent", ["curl/7.64.0"])] none)
        (sampleWorld 1)).stdout
      = ["http: unknown GET /hello 192.0.2.1:4711 curl/7.64.0\n"] := by
  decide

/-- C2, amended: for every request, `logging` inside `tracing` puts exactly one line on
the log, after everything the wrapped stage has put there; the line holds the
identifier chosen by `tracing` (read from the context, never the fallback), the method,
the URL path, the remote address and the user agent.  For the chain of the servers, on
a response of which no status line has been written and for a request that is not a
binary route whose copy fails, that line is the only one added to the log. -/
theorem chain_logs_one_line (logger : Logger) (r : Request) (s : World)
    (hw : s.resp.wroteHeader = false)
    (h1 : r.URLPath = "/large1" → copyFails s "/home/zuiurs/bin1" = false)
    (h2 : r.URLPath = "/large2" → copyFails s "/home/zuiurs/bin2" = false) :
    (∀ (gen : World → String × World) (next : Handler),
      (tracing gen (logging logger next) r s).stdout =
        (next (r.WithContext (r.Context.WithValue requestIDKey
              (Value.str (chooseRequestID gen r s).1)))
            (setHeader "X-Request-Id" (chooseRequestID gen r s).1
              (chooseRequestID gen r s).2)).stdout
          ++ [logger.pfx ++ Sprintln [(chooseRequestID gen r s).1, r.Method, r.URLPath,
                r.RemoteAddr, r.UserAgent]])
    ∧ (serverHandler logger r s).stdout =
        s.stdout ++ [logger.pfx ++ Sprintln [(chooseRequestID nextRequestID r s).1, r.Method,
          r.URLPath, r.RemoteAddr, r.UserAgent]] := by
  have hgen : ∀ (gen : World → String × World) (next : Handler),
      (tracing gen (logging logger next) r s).stdout =
        (next (r.WithContext (r.Context.WithValue requestIDKey
              (Value.str (chooseRequestID gen r s).1)))
            (setHeader "X-Request-Id" (chooseRequestID gen r s).1
              (chooseRequestID gen r s).2)).stdout
          ++ [logger.pfx ++ Sprintln [(chooseRequestID gen r s).1, r.Method, r.URLPath,
                r.RemoteAddr, r.UserAgent]] := by
    intro gen next
    rw [chain_unfold]
    rfl
  refine ⟨hgen, ?_⟩
  have hs : (chooseRequestID nextRequestID r s).2.resp = s.resp
      ∧ (chooseRequestID nextRequestID r s).2.stdout = s.stdout
      ∧ (chooseRequestID nextRequestID r s).2.fs = s.fs := by
    unfold chooseRequestID
    split <;> exact ⟨rfl, rfl, rfl⟩
  have hcf : ∀ path, copyFails (setHeader "X-Request-Id" (chooseRequestID nextRequestID r s).1
      (chooseRequestID nextRequestID r s).2) path = copyFails s path := by
    intro path
    simp [copyFails, setHeader, hs.2.2]
  have hkeep := router_keeps_log
    (r.WithContext (r.Context.WithValue requestIDKey
      (Value.str (chooseRequestID nextRequestID r s).1)))
    (setHeader "X-Request-Id" (chooseRequestID nextRequestID r s).1
      (chooseRequestID nextRequestID r s).2)
    (by show (chooseRequestID nextRequestID r s).2.resp.wroteHeader = false
        rw [hs.1]; exact hw)
    (fun hp => by rw [hcf]; exact h1 hp)
    (fun hp => by rw [hcf]; exact h2 hp)
  unfold serverHandler
  rw [hgen, hkeep]
  show (chooseRequestID nextRequestID r s).2.stdout ++ _ = _
  rw [hs.2.1]

theorem chain_logs_one_line_witness :
    (sampleWorld 1).resp.wroteHeader = false
    ∧ (serverHandler httpLogger
        (sampleRequest "/healthz" [("User-Agent", ["curl/7.64.0"])] none) (sampleWorld 1)).stdout
      = ["http: 42 GET /healthz 192.0.2.1:4711 curl/7.64.0\n"] :=
  ⟨rfl,
    (chain_logs_one_line httpLogger
      (sampleRequest "/healthz" [("User-Agent", ["curl/7.64.0"])] none) (sampleWorld 1) rfl
      (fun _ => rfl) (fun _ => rfl)).2⟩

/-! ## The readiness flag under the interleavings of the two lifecycles -/

/-- A property that every step preserves holds after every run. -/
theorem run_preserves (P : System → Prop)
    (hstep : ∀ (a b : System) (st : Step), P a → a.step st = some b → P b) :
    ∀ (steps : List Step) (a b : System), P a → a.run steps = some b → P b := by
  intro steps
  induction steps with
  | nil =>
    intro a b ha hrun
    simp only [System.run, Option.some.injEq] at hrun
    exact hrun ▸ ha
  | cons st rest ih =>
    intro a b ha hrun
    simp only [System.run] at hrun
    cases hs : a.step st with
    | none => rw [hs] at hrun; exact absurd hrun (by simp)
    | some c =>
      rw [hs] at hrun
      exact ih c b (hstep a c st ha hs) hrun

/-- While no watcher has stored 0, the flag holds 1 as soon as one serving path has
stored 1. -/
theorem step_ready_invariant (a b : System) (st : Step)
    (ha : a.noShutdown →
      (a.plain.serve ≠ ServePc.starting ∨ a.tls.serve ≠ ServePc.starting) → a.healthy = 1)
    (hs : a.step st = some b) :
    b.noShutdown →
      (b.plain.serve ≠ ServePc.starting ∨ b.tls.serve ≠ ServePc.starting) → b.healthy = 1 := by
  intro hb hserve
  have hbp := hb Server.plain
  have hbt := hb Server.tls
  have ha' : (a.plain.watch = WatchPc.waiting ∨ a.plain.watch = WatchPc.notified) →
      (a.tls.watch = WatchPc.waiting ∨ a.tls.watch = WatchPc.notified) →
      (a.plain.serve ≠ ServePc.starting ∨ a.tls.serve ≠ ServePc.starting) → a.healthy = 1 := by
    intro h1 h2 h3
    exact ha (fun sv => by cases sv <;> assumption) h3
  clear ha hb
  cases st with
  | interrupt =>
    simp only [System.step, Option.some.injEq] at hs
    subst hs
    exact ha' hbp hbt hserve
  | storeReady sv =>
    cases sv <;> simp only [System.step, System.life, System.setLife] at hs <;>
      split at hs <;> simp only [Option.some.injEq, reduceCtorEq] at hs <;> subst hs <;> rfl
  | receive sv =>
    cases sv <;> simp only [System.step, System.life, System.setLife] at hs <;>
      split at hs <;> simp only [Option.some.injEq, reduceCtorEq] at hs <;> subst hs <;>
      simp_all [System.life]
  | storeNotReady sv =>
    cases sv <;> simp only [System.step, System.life, System.setLife] at hs <;>
      split at hs <;> simp only [Option.some.injEq, reduceCtorEq] at hs <;> subst hs <;>
      simp_all [System.life]
  | serverClosed sv =>
    cases sv <;> simp only [System.step, System.life, System.setLife] at hs <;>
      split at hs <;> simp only [Option.some.injEq, reduceCtorEq] at hs <;> subst hs <;>
      simp_all [System.life]
  | drained sv =>
    cases sv <;> simp only [System.step, System.life, System.setLife] at hs <;>
      split at hs <;> simp only [Option.some.injEq, reduceCtorEq] at hs <;> subst hs <;>
      simp_all [System.life]
  | stop sv =>
    cases sv <;> simp only [System.step, System.life, System.setLife] at hs <;>
      split at hs <;> simp only [Option.some.injEq, reduceCtorEq] at hs <;> subst hs <;>
      simp_all [System.life]

theorem healthzStatus_eq (sys : System) :
    sys.healthzStatus = if sys.healthy = 1 then 204 else 503 :=
  (healthz_fresh (sampleRequest "/healthz" [] none) (sampleWorld sys.healthy) rfl).2.1

/-- In every state that a run from the start reaches: while a listener accepts and no
watcher has started its shutdown sequence, `/healthz` is answered with 204. -/
theorem healthz_204_while_accepting (steps : List Step) (sys : System) (sv : Server)
    (hrun : System.init.run steps = some sys) (hno : sys.noShutdown)
    (hacc : sys.accepting sv) : sys.healthzStatus = 204 := by
  have hinv := run_preserves
    (fun a => a.noShutdown →
      (a.plain.serve ≠ ServePc.starting ∨ a.tls.serve ≠ ServePc.starting) → a.healthy = 1)
    step_ready_invariant steps System.init sys
    (by intro _ h; rcases h with h | h <;> exact absurd rfl h) hrun
  have hserve : sys.plain.serve ≠ ServePc.starting ∨ sys.tls.serve ≠ ServePc.starting := by
    cases sv with
    | plain =>
      left
      have h : sys.plain.serve = ServePc.serving := hacc.1
      rw [h]; decide
    | tls =>
      right
      have h : sys.tls.serve = ServePc.serving := hacc.1
      rw [h]; decide
  rw [healthzStatus_eq, if_pos (hinv hno hserve)]

/-- Once both serving paths have stored 1 and the flag holds 0, the flag holds 0 after
every further step. -/
theorem step_keeps_flag_zero (a b : System) (st : Step)
    (ha : a.plain.serve ≠ ServePc.starting ∧ a.tls.serve ≠ ServePc.starting ∧ a.healthy = 0)
    (hs : a.step st = some b) :
    b.plain.serve ≠ ServePc.starting ∧ b.tls.serve ≠ ServePc.starting ∧ b.healthy = 0 := by
  obtain ⟨hp, ht, hz⟩ := ha
  cases st with
  | interrupt =>
    simp only [System.step, Option.some.injEq] at hs
    subst hs
    exact ⟨hp, ht, hz⟩
  | storeReady sv =>
    cases sv <;> simp only [System.step, System.life, System.setLife] at hs <;>
      split at hs <;> simp only [Option.some.injEq, reduceCtorEq] at hs <;> simp_all
  | receive sv =>
    cases sv <;> simp only [System.step, System.life, System.setLife] at hs <;>
      split at hs <;> simp only [Option.some.injEq, reduceCtorEq] at hs <;> subst hs <;>
      simp_all
  | storeNotReady sv =>
    cases sv <;> simp only [System.step, System.life, System.setLife] at hs <;>
      split at hs <;> simp only [Option.some.injEq, reduceCtorEq] at hs <;> subst hs <;>
      simp_all
  | serverClosed sv =>
    cases sv <;> simp only [System.step, System.life, System.setLife] at hs <;>
      split at hs <;> simp only [Option.some.injEq, reduceCtorEq] at hs <;> subst hs <;>
      simp_all
  | drained sv =>
    cases sv <;> simp only [System.step, System.life, System.setLife] at hs <;>
      split at hs <;> simp only [Option.some.injEq, reduceCtorEq] at hs <;> subst hs <;>
      simp_all
  | stop sv =>
    cases sv <;> simp only [System.step, System.life, System.setLife] at hs <;>
      split at hs <;> simp only [Option.some.injEq, reduceCtorEq] at hs <;> subst hs <;>
      simp_all

/-- When a watcher stores 0 after both serving paths have stored 1, `/healthz` is
answered with 503 in every state reached from there. -/
theorem healthz_503_after_late_shutdown (a b c : System) (sv : Server) (steps : List Step)
    (hp : a.plain.serve ≠ ServePc.starting) (ht : a.tls.serve ≠ ServePc.starting)
    (hstore : a.step (Step.storeNotReady sv) = some b) (hrun : b.run steps = some c) :
    c.healthzStatus = 503 := by
  have hb : b.plain.serve ≠ ServePc.starting ∧ b.tls.serve ≠ ServePc.starting
      ∧ b.healthy = 0 := by
    cases sv <;> simp only [System.step, System.life, System.setLife] at hstore <;>
      split at hstore <;> simp only [Option.some.injEq, reduceCtorEq] at hstore <;>
      subst hstore <;> exact ⟨hp, ht, rfl⟩
  have hc := run_preserves
    (fun x => x.plain.serve ≠ ServePc.starting ∧ x.tls.serve ≠ ServePc.starting ∧ x.healthy = 0)
    step_keeps_flag_zero steps b c hb hrun
  rw [healthzStatus_eq, hc.2.2]
  rfl

/-- C5, the failing interleaving: the plain server stores 1 and listens, the interrupt
arrives, the plain watcher receives it and stores 0, and only then the serving path of
the TLS server stores 1.  The plain watcher is in its shutdown sequence, the TLS
listener accepts, the flag holds 1 and `/healthz` is answered with 204, not 503. -/
theorem healthz_204_during_drain :
    System.init.run [Step.storeReady Server.plain, Step.interrupt, Step.receive Server.plain,
        Step.storeNotReady Server.plain, Step.storeReady Server.tls]
      = some { healthy := 1,
               plain := { serve := ServePc.serving, watch := WatchPc.draining, quit := false },
               tls := { serve := ServePc.serving, watch := WatchPc.waiting, quit := true } }
    ∧ System.shuttingDown
        { healthy := 1,
          plain := { serve := ServePc.serving, watch := WatchPc.draining, quit := false },
          tls := { serve := ServePc.serving, watch := WatchPc.waiting, quit := true } }
        Server.plain
    ∧ System.accepting
        { healthy := 1,
          plain := { serve := ServePc.serving, watch := WatchPc.draining, quit := false },
          tls := { serve := ServePc.serving, watch := WatchPc.waiting, quit := true } }
        Server.tls
    ∧ System.healthzStatus
        { healthy := 1,
          plain := { serve := ServePc.serving, watch := WatchPc.draining, quit := false },
          tls := { serve := ServePc.serving, watch := WatchPc.waiting, quit := true } }
      = 204 := by
  refine ⟨by decide, rfl, ⟨rfl, Or.inl rfl⟩, by decide⟩

end Awget
